import Mathlib

/-!
Shallow embedding of the advertising-marketplace backend:
the authentication middleware (`src/apps/backend/src/middleware/auth.ts`)
and the ownership-scoped CRUD routes for Campaign
(`src/apps/backend/src/routes/campaigns.ts`) and AdSlot
(the ad-slots router: GET/POST/PUT/DELETE and the booking operation).

Request bodies are JSON, so body fields are modelled as JavaScript
values (`JsVal`) with JavaScript truthiness; an absent field is `none`.
Prisma semantics that matter here are modelled explicitly:
a `where` filter whose value is `undefined` is omitted, and an
`update` data field whose value is `undefined` leaves the column
unchanged.
-/

/-- A JavaScript value as it appears in a parsed JSON request body.
`vNum` carries a rational (JSON numbers; floating-point rounding is
irrelevant to the verified properties), `vNaN` is the NaN number,
`vArr` models the string arrays used by the targeting fields. -/
inductive JsVal where
  | vStr (s : String)
  | vNum (q : ℚ)
  | vBool (b : Bool)
  | vNull
  | vNaN
  | vArr (elems : List String)
deriving DecidableEq, Repr

/-- JavaScript truthiness of a defined value:
empty string, 0, NaN, false and null are falsy; arrays are truthy. -/
def truthyV : JsVal → Bool
  | .vStr s => s ≠ ""
  | .vNum q => q ≠ 0
  | .vBool b => b
  | .vNull => false
  | .vNaN => false
  | .vArr _ => true

/-- Truthiness of a possibly-undefined body field (`undefined` is falsy). -/
def truthy : Option JsVal → Bool
  | none => false
  | some v => truthyV v

/-- JavaScript `a || b` on a possibly-undefined `a`. -/
def jsOr (a : Option JsVal) (b : JsVal) : JsVal :=
  match a with
  | none => b
  | some v => if truthyV v then v else b

/-- `typeof v === "string"`. -/
def isStr : JsVal → Bool
  | .vStr _ => true
  | _ => false

/-- Value of a digit string (most significant digit first). -/
def digitsToNat (l : List Char) : Nat :=
  l.foldl (fun a c => a * 10 + (c.toNat - 48)) 0

/-- JavaScript `parseFloat` on a string, restricted to plain decimal
literals (optional sign, digits, optional fraction); `none` models NaN.
The parsed value is returned exactly as a pair
(mantissa, number of fraction digits): the number it denotes is
mantissa / 10 ^ fracDigits (see `decValue`). Exponent forms and
`Infinity` do not occur in the verified properties. -/
def parseFloatDec (s : String) : Option (ℤ × ℕ) :=
  let cs := s.toList.dropWhile (fun c => c = ' ' ∨ c = '\t' ∨ c = '\n' ∨ c = '\r')
  let signAndRest : Bool × List Char :=
    match cs with
    | '-' :: r => (true, r)
    | '+' :: r => (false, r)
    | r => (false, r)
  let intPart := signAndRest.2.takeWhile Char.isDigit
  let rest := signAndRest.2.drop intPart.length
  let fracPart :=
    match rest with
    | '.' :: r => r.takeWhile Char.isDigit
    | _ => []
  if intPart.isEmpty ∧ fracPart.isEmpty then none
  else
    let mantissa : ℕ := digitsToNat intPart * 10 ^ fracPart.length + digitsToNat fracPart
    some (if signAndRest.1 then -(mantissa : ℤ) else (mantissa : ℤ), fracPart.length)

/-- The rational number a parsed decimal denotes. -/
def decValue (p : ℤ × ℕ) : ℚ := (p.1 : ℚ) / 10 ^ p.2

/-- JavaScript `parseInt` as used for the AdSlot width/height fields:
longest leading integer of the string form; NaN when there is none. -/
def jsParseInt (v : JsVal) : JsVal :=
  match v with
  | .vStr s =>
    let cs := s.toList.dropWhile (fun c => c = ' ')
    let signAndRest : Bool × List Char :=
      match cs with
      | '-' :: r => (true, r)
      | '+' :: r => (false, r)
      | r => (false, r)
    let ds := signAndRest.2.takeWhile Char.isDigit
    if ds.isEmpty then .vNaN
    else .vNum (if signAndRest.1 then -(digitsToNat ds : ℚ) else (digitsToNat ds : ℚ))
  | .vNum q => .vNum ((q.num / (q.den : ℤ) : ℤ) : ℚ)
  | _ => .vNaN

/-- Hexadecimal digit value, for percent-decoding. -/
def hexVal (c : Char) : Option Nat :=
  if '0' ≤ c ∧ c ≤ '9' then some (c.toNat - 48)
  else if 'A' ≤ c ∧ c ≤ 'F' then some (c.toNat - 55)
  else if 'a' ≤ c ∧ c ≤ 'f' then some (c.toNat - 87)
  else none

/-- `decodeURIComponent` on the session token: percent-escapes are
decoded; a malformed escape (which the real function reports as an
error) is kept verbatim, a difference that no verified property
depends on. -/
def decodePercentAux : List Char → List Char
  | [] => []
  | '%' :: h :: l :: rest =>
    match hexVal h, hexVal l with
    | some a, some b => Char.ofNat (16 * a + b) :: decodePercentAux rest
    | _, _ => '%' :: h :: l :: decodePercentAux rest
  | c :: rest => c :: decodePercentAux rest

def decodePercent (s : String) : String :=
  String.mk (decodePercentAux s.toList)

/-- The literal sought by the session-cookie regular expression. -/
def sessionTokenLit : List Char := "better-auth.session_token=".toList

/-- Scan of the cookie header for the first position where
`better-auth.session_token=` is followed by at least one non-semicolon
character, capturing up to the next semicolon: the behaviour of the
regular expression match in `requireAuth`. -/
def findCapture : List Char → Option (List Char)
  | [] => none
  | c :: rest =>
    if List.isPrefixOf sessionTokenLit (c :: rest) then
      let cap := ((c :: rest).drop sessionTokenLit.length).takeWhile (fun ch => ch ≠ ';')
      if cap.isEmpty then findCapture rest else some cap
    else findCapture rest

def extractSessionToken (cookie : String) : Option String :=
  (findCapture cookie.toList).map (fun l => String.mk l)

/-! ## Data model (section 3 of the design; Prisma schema tables) -/

/-- `user` table row (owned by the external auth library). -/
structure DbUser where
  id : String
  email : String
deriving DecidableEq, Repr

/-- `session` table row (Better Auth session store). -/
structure Session where
  token : String
  expiresAt : Nat
  userId : String
deriving DecidableEq, Repr

/-- `sponsor` table row: one-to-one with a user. -/
structure Sponsor where
  id : String
  userId : String
  name : String
deriving DecidableEq, Repr

/-- `publisher` table row: one-to-one with a user. -/
structure Publisher where
  id : String
  userId : String
  name : String
  category : String
  monthlyViews : Nat
deriving DecidableEq, Repr

/-- `new Date(x)` applied to a body value: an opaque date wrapper
(its calendar interpretation plays no role in the verified properties). -/
structure JsDate where
  ofVal : JsVal
deriving DecidableEq, Repr

/-- Stored Campaign row. `Option JsVal` columns: `none` is SQL NULL.
`status` holds one of "ACTIVE" | "PAUSED" | "COMPLETED". -/
structure Campaign where
  id : String
  sponsorId : String
  name : JsVal
  description : Option JsVal
  budget : JsVal
  cpmRate : Option JsVal
  cpcRate : Option JsVal
  startDate : JsDate
  endDate : JsDate
  targetCategories : JsVal
  targetRegions : JsVal
  status : String
deriving DecidableEq, Repr

/-- Stored AdSlot row. `basePrice` is stored as the validated decimal
string; `width`/`height` hold the `parseInt` result or null. -/
structure AdSlot where
  id : String
  publisherId : String
  name : JsVal
  description : Option JsVal
  type : JsVal
  position : Option JsVal
  width : JsVal
  height : JsVal
  basePrice : JsVal
  cpmFloor : JsVal
  isAvailable : Bool
deriving DecidableEq, Repr

/-- Placement join row (referenced by the routes; booking never creates one). -/
structure Placement where
  id : String
  campaignId : String
  adSlotId : String
  publisherId : String
deriving DecidableEq, Repr

/-- The relational state the routes read and write. -/
structure Db where
  users : List DbUser
  sessions : List Session
  sponsors : List Sponsor
  publishers : List Publisher
  campaigns : List Campaign
  adSlots : List AdSlot
  placements : List Placement
deriving DecidableEq, Repr

/-! ## Identity resolver (`middleware/auth.ts`, `requireAuth`) -/

inductive Role where
  | sponsor
  | publisher
deriving DecidableEq, Repr

/-- The resolved identity attached to `req.user`. -/
structure Identity where
  id : String
  role : Role
  sponsorId : Option String
  publisherId : Option String
deriving DecidableEq, Repr

/-- The identity `requireAuth` attaches for a sponsor user. -/
def Identity.mkSponsor (uid sid : String) : Identity :=
  ⟨uid, .sponsor, some sid, none⟩

/-- The identity `requireAuth` attaches for a publisher user. -/
def Identity.mkPublisher (uid pid : String) : Identity :=
  ⟨uid, .publisher, none, some pid⟩

/-- A rejection from the middleware: HTTP status, `error` and `hint` fields. -/
structure AuthErr where
  status : Nat
  error : String
  hint : Option String
deriving DecidableEq, Repr

/-- The session query: rows of `session` joined to `user` with matching
token and `expiresAt > NOW()`; the handler uses the first row. -/
def sessionLookup (db : Db) (now : Nat) (tok : String) : Option Session :=
  db.sessions.find? (fun s =>
    s.token == tok && decide (now < s.expiresAt) && db.users.any (fun u => u.id == s.userId))

/-- Steps 4–5 of `requireAuth`: probe the sponsor table, then the
publisher table, by user id; the first match fixes role and scoped id;
neither match is a 403. -/
def resolveRole (db : Db) (uid : String) : Except AuthErr Identity :=
  let sponsor := db.sponsors.find? (fun s => s.userId == uid)
  let publisher := db.publishers.find? (fun p => p.userId == uid)
  match sponsor with
  | some sp => .ok (Identity.mkSponsor uid sp.id)
  | none =>
    match publisher with
    | some pb => .ok (Identity.mkPublisher uid pb.id)
    | none => .error ⟨403, "User role not found", some "Contact support"⟩

/-- `decodeURIComponent(sessionToken).split('.')[0]`: the part of the
percent-decoded token before the first dot (the whole string when there
is no dot). -/
def firstTokenSegment (tok : String) : String :=
  String.mk ((decodePercent tok).toList.takeWhile (fun c => c ≠ '.'))

/-- `requireAuth`: cookie extraction, token decode (first `.`-segment of
the percent-decoded token), session lookup, then role resolution. -/
def requireAuth (cookieHeader : Option String) (now : Nat) (db : Db) :
    Except AuthErr Identity :=
  match cookieHeader with
  | none => .error ⟨401, "Authentication required", some "Please log in first"⟩
  | some ck =>
    match extractSessionToken ck with
    | none => .error ⟨401, "Invalid session", some "Session cookie not found"⟩
    | some tok =>
      let actualToken := firstTokenSegment tok
      match sessionLookup db now actualToken with
      | none => .error ⟨401, "Session expired", some "Please log in again"⟩
      | some srow => resolveRole db srow.userId

/-! ## HTTP responses -/

/-- JSON response bodies the modelled routes emit. -/
inductive RespBody where
  | errMsg (error : String) (hint : Option String)
  | campaignOne (c : Campaign)
  | campaignMany (cs : List Campaign)
  | adSlotOne (s : AdSlot)
  | bookResult (success : Bool) (message : String) (s : AdSlot)
  | empty
deriving DecidableEq, Repr

structure HttpResp where
  status : Nat
  body : RespBody
deriving DecidableEq, Repr

/-- Shorthand for `res.status(n).json({ error })`. -/
def errResp (status : Nat) (msg : String) : HttpResp :=
  ⟨status, .errMsg msg none⟩

/-- A Prisma `where` filter entry whose value may be `undefined`:
`undefined` (`none`) is omitted, i.e. matches every row. -/
def matchOpt (o : Option String) (v : String) : Bool :=
  match o with
  | none => true
  | some s => s == v

/-! ## Campaign routes (`routes/campaigns.ts`) -/

/-- The fields the campaign handlers destructure from `req.body`;
`sponsorId` is listed so that a body carrying one is representable —
no handler reads it. -/
structure CampaignBody where
  name : Option JsVal
  description : Option JsVal
  budget : Option JsVal
  cpmRate : Option JsVal
  cpcRate : Option JsVal
  startDate : Option JsVal
  endDate : Option JsVal
  targetCategories : Option JsVal
  targetRegions : Option JsVal
  status : Option JsVal
  sponsorId : Option JsVal
deriving DecidableEq, Repr

/-- `if (!name || !budget || !startDate || !endDate)`: the required-field
check shared by campaign create and update. -/
def campaignBodyRequired (b : CampaignBody) : Bool :=
  truthy b.name && truthy b.budget && truthy b.startDate && truthy b.endDate

/-- `status && { status }` query filter of the campaign list route:
an absent or empty status string imposes no constraint. -/
def statusFilter (statusQ : Option String) (st : String) : Bool :=
  match statusQ with
  | none => true
  | some s => if s = "" then true else st == s

/-- GET /api/campaigns: `findMany` filtered by the caller's `sponsorId`
(a publisher's `sponsorId` is `undefined`, so the filter is omitted)
and the optional status query. The route returns this list as 200 JSON;
`orderBy createdAt desc` is presentation and is not modelled. -/
def campaignList (u : Identity) (statusQ : Option String) (db : Db) : List Campaign :=
  db.campaigns.filter (fun c => matchOpt u.sponsorId c.sponsorId && statusFilter statusQ c.status)

/-- `findUnique({ where: { id, sponsorId: req.user.sponsorId } })`. -/
def findCampaign (db : Db) (idp : String) (sid : Option String) : Option Campaign :=
  db.campaigns.find? (fun c => c.id == idp && matchOpt sid c.sponsorId)

/-- GET /api/campaigns/:id: ownership-scoped fetch, 404 on no match. -/
def campaignGetById (u : Identity) (idp : String) (db : Db) : HttpResp :=
  match findCampaign db idp u.sponsorId with
  | none => errResp 404 "Campaign not found"
  | some c => ⟨200, .campaignOne c⟩

/-- The record stored by POST /api/campaigns once the required-field
check passed and the caller has a sponsorId. `status` is not in the
create data; the schema default ACTIVE applies (modelled from the
spec's Campaign status enum — the schema file is not among the shown
sources). -/
def mkCampaign (sid newId : String) (b : CampaignBody) : Campaign :=
  { id := newId
    sponsorId := sid
    name := b.name.getD .vNull
    description := b.description
    budget := b.budget.getD .vNull
    cpmRate := b.cpmRate
    cpcRate := b.cpcRate
    startDate := ⟨b.startDate.getD .vNull⟩
    endDate := ⟨b.endDate.getD .vNull⟩
    targetCategories := jsOr b.targetCategories (.vArr [])
    targetRegions := jsOr b.targetRegions (.vArr [])
    status := "ACTIVE" }

/-- POST /api/campaigns. When the caller's identity carries no
sponsorId (a publisher), `create` receives `sponsorId: undefined` for a
required column: the data layer throws and the catch-all answers 500
(the Campaign schema column is required — modelled from the spec's data
model). -/
def campaignCreate (u : Identity) (b : CampaignBody) (db : Db) (newId : String) :
    HttpResp × Db :=
  if !campaignBodyRequired b then
    (errResp 400 "Name, budget, startDate, and endDate are required", db)
  else
    match u.sponsorId with
    | none => (errResp 500 "Failed to create campaign", db)
    | some sid =>
      let c := mkCampaign sid newId b
      (⟨201, .campaignOne c⟩, { db with campaigns := db.campaigns ++ [c] })

/-- The `update` data of PUT /api/campaigns/:id applied to a row.
Prisma leaves a column unchanged when the data value is `undefined`:
that covers `description`, `cpmRate`, `cpcRate` and (for a publisher
caller) `sponsorId`. `status` is destructured from the body but never
passed to `update`, so it is always unchanged. -/
def applyCampaignUpdate (u : Identity) (b : CampaignBody) (c : Campaign) : Campaign :=
  { c with
    name := b.name.getD c.name
    description := match b.description with
      | some v => some v
      | none => c.description
    budget := b.budget.getD c.budget
    cpmRate := match b.cpmRate with
      | some v => some v
      | none => c.cpmRate
    cpcRate := match b.cpcRate with
      | some v => some v
      | none => c.cpcRate
    startDate := ⟨b.startDate.getD .vNull⟩
    endDate := ⟨b.endDate.getD .vNull⟩
    targetCategories := jsOr b.targetCategories (.vArr [])
    targetRegions := jsOr b.targetRegions (.vArr [])
    sponsorId := u.sponsorId.getD c.sponsorId }

/-- PUT /api/campaigns/:id: required-field check, ownership re-fetch by
id + sponsorId, then `update({ where: { id } })`. -/
def campaignUpdate (u : Identity) (idp : String) (b : CampaignBody) (db : Db) :
    HttpResp × Db :=
  if !campaignBodyRequired b then
    (errResp 400 "Name, budget, startDate, and endDate are required", db)
  else
    match findCampaign db idp u.sponsorId with
    | none => (errResp 404 "Campaign not found", db)
    | some c =>
      let updated := applyCampaignUpdate u b c
      (⟨200, .campaignOne updated⟩,
       { db with campaigns :=
           db.campaigns.map (fun x => if x.id == idp then applyCampaignUpdate u b x else x) })

/-- DELETE /api/campaigns/:id: ownership re-fetch, then
`delete({ where: { id } })`, 204 with no body. -/
def campaignDelete (u : Identity) (idp : String) (db : Db) : HttpResp × Db :=
  match findCampaign db idp u.sponsorId with
  | none => (errResp 404 "Campaign not found", db)
  | some _ =>
    (⟨204, .empty⟩, { db with campaigns := db.campaigns.filter (fun c => !(c.id == idp)) })

/-! ## AdSlot routes (the ad-slots router: current version with
field validation and PUT/DELETE implemented) -/

/-- The fields the ad-slot handlers destructure from `req.body`;
`publisherId` is listed so that a body carrying one is representable —
no handler reads it. `isAvailable` is typed as the boolean the schema
column accepts. -/
structure AdSlotBody where
  name : Option JsVal
  description : Option JsVal
  type : Option JsVal
  position : Option JsVal
  width : Option JsVal
  height : Option JsVal
  basePrice : Option JsVal
  cpmFloor : Option JsVal
  isAvailable : Option Bool
  publisherId : Option JsVal
deriving DecidableEq, Repr

/-- `if (!name || !type || !basePrice)`: the required-field check shared
by ad-slot create and update. -/
def adSlotBodyRequired (b : AdSlotBody) : Bool :=
  truthy b.name && truthy b.type && truthy b.basePrice

/-- `typeof basePrice !== 'string' || parseFloat(basePrice) <= 0`:
true when the request must be rejected with
"Base price must be a positive number". The parsed value is ≤ 0
exactly when its mantissa is (`decValue_nonpos_iff` below). A
non-numeric string parses to NaN, and `NaN <= 0` is false, so it is
not rejected here — faithful to the source comparison. -/
def basePriceInvalid (v : JsVal) : Bool :=
  if isStr v then
    match v with
    | .vStr s =>
      match parseFloatDec s with
      | some p => decide (p.1 ≤ 0)
      | none => false
    | _ => false
  else true

def validTypes : List String := ["DISPLAY", "VIDEO", "NATIVE", "NEWSLETTER", "PODCAST"]

/-- `validTypes.includes(type)`: only one of the five type strings
passes; any non-string value fails the strict-equality membership. -/
def typeValid (v : JsVal) : Bool :=
  match v with
  | .vStr s => validTypes.contains s
  | _ => false

/-- The full create/update field validation of the ad-slot router:
`some e` is the 400 response to send, `none` means the body passed. -/
def adSlotValidate (b : AdSlotBody) : Option HttpResp :=
  if !adSlotBodyRequired b then
    some (errResp 400 "Name, type, and basePrice are required")
  else if basePriceInvalid (b.basePrice.getD .vNull) then
    some (errResp 400 "Base price must be a positive number")
  else if !typeValid (b.type.getD .vNull) then
    some (errResp 400 ("Type must be one of: " ++ String.intercalate ", " validTypes))
  else none

/-- `findUnique({ where: { id, publisherId } })` with the
undefined-filter-omitted Prisma rule. -/
def findAdSlot (db : Db) (idp : String) (pid : Option String) : Option AdSlot :=
  db.adSlots.find? (fun s => s.id == idp && matchOpt pid s.publisherId)

/-- GET /api/ad-slots/:id: the where clause is `{ id }`, and
`publisherId` is added only for a publisher caller; sponsors may fetch
any slot (they view slots to book them). -/
def adSlotGetById (u : Identity) (idp : String) (db : Db) : HttpResp :=
  let found := db.adSlots.find? (fun s =>
    s.id == idp && (if u.role = .publisher then matchOpt u.publisherId s.publisherId else true))
  match found with
  | none => errResp 404 "Ad slot not found"
  | some s => ⟨200, .adSlotOne s⟩

/-- The record stored by POST /api/ad-slots after the role gate and
field validation: `width`/`height` go through `parseInt` when truthy
and are null otherwise, `cpmFloor` defaults to null, and the schema
default `isAvailable = true` applies (modelled from the spec: the
creation scenario yields `isAvailable = true`; the schema file is not
among the shown sources). -/
def mkAdSlot (pid newId : String) (b : AdSlotBody) : AdSlot :=
  { id := newId
    publisherId := pid
    name := b.name.getD .vNull
    description := b.description
    type := b.type.getD .vNull
    position := b.position
    width := if truthy b.width then jsParseInt (b.width.getD .vNull) else .vNull
    height := if truthy b.height then jsParseInt (b.height.getD .vNull) else .vNull
    basePrice := b.basePrice.getD .vNull
    cpmFloor := jsOr b.cpmFloor .vNull
    isAvailable := true }

/-- POST /api/ad-slots: role gate (publishers only), required-field
check, basePrice and type validation, then create with the
authenticated publisher's id. A publisher identity always carries a
publisherId; were it absent, the required column would make the data
layer throw and the catch-all answer 500. -/
def adSlotCreate (u : Identity) (b : AdSlotBody) (db : Db) (newId : String) :
    HttpResp × Db :=
  if u.role ≠ .publisher then
    (errResp 403 "Only publishers can create ad slots", db)
  else
    match adSlotValidate b with
    | some e => (e, db)
    | none =>
      match u.publisherId with
      | none => (errResp 500 "Failed to create ad slot", db)
      | some pid =>
        let s := mkAdSlot pid newId b
        (⟨201, .adSlotOne s⟩, { db with adSlots := db.adSlots ++ [s] })

/-- The `update` data of PUT /api/ad-slots/:id applied to a row:
`description` and `position` are unchanged when `undefined`;
`width`/`height`/`cpmFloor` are always written (null when falsy or
absent); `isAvailable` is written from the body when defined and reset
to `true` otherwise; `publisherId` is not in the data and never
changes. -/
def applyAdSlotUpdate (b : AdSlotBody) (s : AdSlot) : AdSlot :=
  { s with
    name := b.name.getD s.name
    description := match b.description with
      | some v => some v
      | none => s.description
    type := b.type.getD s.type
    position := match b.position with
      | some v => some v
      | none => s.position
    width := if truthy b.width then jsParseInt (b.width.getD .vNull) else .vNull
    height := if truthy b.height then jsParseInt (b.height.getD .vNull) else .vNull
    basePrice := b.basePrice.getD s.basePrice
    cpmFloor := jsOr b.cpmFloor .vNull
    isAvailable := b.isAvailable.getD true }

/-- PUT /api/ad-slots/:id: role gate, the same validation as create,
ownership re-fetch by id + publisherId, then `update({ where: { id } })`. -/
def adSlotUpdate (u : Identity) (idp : String) (b : AdSlotBody) (db : Db) :
    HttpResp × Db :=
  if u.role ≠ .publisher then
    (errResp 403 "Only publishers can update ad slots", db)
  else
    match adSlotValidate b with
    | some e => (e, db)
    | none =>
      match findAdSlot db idp u.publisherId with
      | none => (errResp 404 "Ad slot not found", db)
      | some s =>
        (⟨200, .adSlotOne (applyAdSlotUpdate b s)⟩,
         { db with adSlots :=
             db.adSlots.map (fun x => if x.id == idp then applyAdSlotUpdate b x else x) })

/-- DELETE /api/ad-slots/:id: role gate, ownership re-fetch, then
`delete({ where: { id } })`, 204 with no body. -/
def adSlotDelete (u : Identity) (idp : String) (db : Db) : HttpResp × Db :=
  if u.role ≠ .publisher then
    (errResp 403 "Only publishers can delete ad slots", db)
  else
    match findAdSlot db idp u.publisherId with
    | none => (errResp 404 "Ad slot not found", db)
    | some _ =>
      (⟨204, .empty⟩, { db with adSlots := db.adSlots.filter (fun s => !(s.id == idp)) })

/-- POST /api/ad-slots/:id/book: role gate (sponsors only), existence
check by id, availability check, then `update({ where: { id },
data: { isAvailable: false } })`. The body's `message` is only logged
and has no effect on state or response body shape. -/
def adSlotBook (u : Identity) (idp : String) (db : Db) : HttpResp × Db :=
  if u.role ≠ .sponsor then
    (errResp 403 "Only sponsors can book ad slots", db)
  else
    match db.adSlots.find? (fun s => s.id == idp) with
    | none => (errResp 404 "Ad slot not found", db)
    | some s =>
      if !s.isAvailable then
        (errResp 400 "Ad slot is no longer available", db)
      else
        let updated := { s with isAvailable := false }
        (⟨200, .bookResult true "Ad slot booked successfully!" updated⟩,
         { db with adSlots :=
             db.adSlots.map (fun x => if x.id == idp then { x with isAvailable := false } else x) })

/-! ## Claim-level predicates -/

/-- The body's basePrice denotes a number ≤ 0: a decimal string parsing
to a non-positive value, or a non-positive JSON number. -/
def numNonposB (v : Option JsVal) : Bool :=
  match v with
  | some (.vStr s) =>
    match parseFloatDec s with
    | some p => decide (p.1 ≤ 0)
    | none => false
  | some (.vNum q) => decide (q ≤ 0)
  | _ => false

/-- The body's type lies outside the enumerated set: absent, a
non-string, or a string not among the five valid types. -/
def typeOutsideB (t : Option JsVal) : Bool :=
  match t with
  | some v => !typeValid v
  | none => true

/-! ## Concrete sample data (used by witnesses and counterexamples) -/

/-- A campaign owned by sponsor "s1". -/
def camp1 : Campaign :=
  { id := "c1", sponsorId := "s1", name := .vStr "Camp", description := none,
    budget := .vStr "100", cpmRate := none, cpcRate := none,
    startDate := ⟨.vStr "2026-01-01"⟩, endDate := ⟨.vStr "2026-02-01"⟩,
    targetCategories := .vArr [], targetRegions := .vArr [], status := "ACTIVE" }

/-- An available ad slot owned by publisher "p1". -/
def slot1 : AdSlot :=
  { id := "a1", publisherId := "p1", name := .vStr "Slot", description := none,
    type := .vStr "DISPLAY", position := none, width := .vNull, height := .vNull,
    basePrice := .vStr "10.00", cpmFloor := .vNull, isAvailable := true }

/-- A database with one sponsor user (u1/s1), one publisher user
(u2/p1), one campaign and one ad slot. -/
def db1 : Db :=
  { users := [⟨"u1", "a@x"⟩, ⟨"u2", "b@x"⟩], sessions := [⟨"tok1", 100, "u1"⟩],
    sponsors := [⟨"s1", "u1", "S"⟩], publishers := [⟨"p1", "u2", "P", "tech", 5⟩],
    campaigns := [camp1], adSlots := [slot1], placements := [] }

/-- A database whose user u1 has rows in both the sponsor and the
publisher tables. -/
def db2 : Db :=
  { users := [⟨"u1", "a@x"⟩], sessions := [⟨"tok1", 100, "u1"⟩],
    sponsors := [⟨"s1", "u1", "S"⟩], publishers := [⟨"p9", "u1", "P", "tech", 5⟩],
    campaigns := [], adSlots := [], placements := [] }

/-- A campaign body passing the required-field check. -/
def cbGood : CampaignBody :=
  { name := some (.vStr "New"), description := none, budget := some (.vStr "50"),
    cpmRate := none, cpcRate := none, startDate := some (.vStr "2026-03-01"),
    endDate := some (.vStr "2026-04-01"), targetCategories := none,
    targetRegions := none, status := none, sponsorId := none }

/-- A campaign body that passes validation and carries
`status: "PAUSED"`. -/
def cbStatus : CampaignBody :=
  { cbGood with status := some (.vStr "PAUSED") }

/-- An ad-slot body passing the full create/update validation. -/
def abGood : AdSlotBody :=
  { name := some (.vStr "N"), description := none, type := some (.vStr "DISPLAY"),
    position := none, width := none, height := none,
    basePrice := some (.vStr "10.00"), cpmFloor := none, isAvailable := none,
    publisherId := none }

/-! ## Theorems -/

/-- C3: booking an ad slot succeeds (200, setting `isAvailable` to
false) exactly when the caller is a sponsor, the slot exists and is
available; a non-sponsor gets 403, a missing slot 404, an unavailable
slot 400, and in every failure case the state is unchanged. -/
theorem c3_book_gate (u : Identity) (idp : String) (db : Db) :
    ((adSlotBook u idp db).1.status = 200 ↔
      u.role = .sponsor ∧
        ∃ s, db.adSlots.find? (fun t => t.id == idp) = some s ∧ s.isAvailable = true)
    ∧ (u.role ≠ .sponsor →
        adSlotBook u idp db = (errResp 403 "Only sponsors can book ad slots", db))
    ∧ (u.role = .sponsor → db.adSlots.find? (fun t => t.id == idp) = none →
        adSlotBook u idp db = (errResp 404 "Ad slot not found", db))
    ∧ (∀ s, u.role = .sponsor → db.adSlots.find? (fun t => t.id == idp) = some s →
        s.isAvailable = false →
        adSlotBook u idp db = (errResp 400 "Ad slot is no longer available", db))
    ∧ (∀ s, u.role = .sponsor → db.adSlots.find? (fun t => t.id == idp) = some s →
        s.isAvailable = true →
        (adSlotBook u idp db).2.adSlots =
          db.adSlots.map (fun x => if x.id == idp then { x with isAvailable := false } else x)) := by
  refine ⟨⟨?_, ?_⟩, ?_, ?_, ?_, ?_⟩
  · intro h
    unfold adSlotBook at h
    by_cases hrole : u.role = Role.sponsor
    · cases hfind : db.adSlots.find? (fun t => t.id == idp) with
      | none => simp [hrole, hfind, errResp] at h
      | some s =>
        by_cases hav : s.isAvailable = true
        · exact ⟨hrole, s, rfl, hav⟩
        · simp [hrole, hfind, hav, errResp] at h
    · simp [hrole, errResp] at h
  · rintro ⟨hrole, s, hfind, hav⟩
    unfold adSlotBook
    simp [hrole, hfind, hav]
  · intro hrole
    unfold adSlotBook
    simp [hrole]
  · intro hrole hfind
    unfold adSlotBook
    simp [hrole, hfind]
  · intro s hrole hfind hav
    unfold adSlotBook
    simp [hrole, hfind, hav]
  · intro s hrole hfind hav
    unfold adSlotBook
    simp [hrole, hfind, hav]

/-- Closed witness for C3 at a concrete state: sponsor books the
available slot "a1" of `db1`, so the success side of the gate holds. -/
theorem c3_book_gate_witness :
    (Identity.mkSponsor "u1" "s1").role = .sponsor
    ∧ db1.adSlots.find? (fun t => t.id == "a1") = some slot1
    ∧ slot1.isAvailable = true
    ∧ (adSlotBook (Identity.mkSponsor "u1" "s1") "a1" db1).1.status = 200 := by
  refine ⟨by decide, by decide, by decide, ?_⟩
  exact ((c3_book_gate (Identity.mkSponsor "u1" "s1") "a1" db1).1).mpr
    ⟨by decide, slot1, by decide, by decide⟩

/-- C9: a successful booking changes the state only by setting the
booked slot's `isAvailable` to false: no placement is created and every
other table and every other field is unchanged. -/
theorem c9_book_frame (u : Identity) (idp : String) (db : Db)
    (h : (adSlotBook u idp db).1.status = 200) :
    (adSlotBook u idp db).2 =
      { db with adSlots :=
          db.adSlots.map (fun x => if x.id == idp then { x with isAvailable := false } else x) } := by
  unfold adSlotBook at h ⊢
  by_cases hrole : u.role = Role.sponsor
  · cases hfind : db.adSlots.find? (fun t => t.id == idp) with
    | none => simp [hrole, hfind, errResp] at h
    | some s =>
      by_cases hav : s.isAvailable = true
      · simp [hrole, hfind, hav]
      · simp [hrole, hfind, hav, errResp] at h
  · simp [hrole, errResp] at h

/-- Closed witness for C9: the concrete booking of "a1" in `db1`. -/
theorem c9_book_frame_witness :
    (adSlotBook (Identity.mkSponsor "u1" "s1") "a1" db1).1.status = 200
    ∧ (adSlotBook (Identity.mkSponsor "u1" "s1") "a1" db1).2 =
      { db1 with adSlots :=
          db1.adSlots.map (fun x => if x.id == "a1" then { x with isAvailable := false } else x) } :=
  ⟨by decide, c9_book_frame (Identity.mkSponsor "u1" "s1") "a1" db1 (by decide)⟩

/-- C6: the identity resolver's rejection taxonomy: missing cookie →
401 with hint "Please log in first"; cookie without a session token →
401; no non-expired session row for the token → 401; resolved user in
neither role table → 403; otherwise it passes the resolved identity on. -/
theorem c6_requireAuth_taxonomy (db : Db) (now : Nat) :
    requireAuth none now db =
      .error ⟨401, "Authentication required", some "Please log in first"⟩
    ∧ (∀ ck, extractSessionToken ck = none →
        requireAuth (some ck) now db =
          .error ⟨401, "Invalid session", some "Session cookie not found"⟩)
    ∧ (∀ ck tok, extractSessionToken ck = some tok →
        sessionLookup db now (firstTokenSegment tok) = none →
        requireAuth (some ck) now db =
          .error ⟨401, "Session expired", some "Please log in again"⟩)
    ∧ (∀ ck tok srow, extractSessionToken ck = some tok →
        sessionLookup db now (firstTokenSegment tok) = some srow →
        db.sponsors.find? (fun s => s.userId == srow.userId) = none →
        db.publishers.find? (fun p => p.userId == srow.userId) = none →
        requireAuth (some ck) now db =
          .error ⟨403, "User role not found", some "Contact support"⟩)
    ∧ (∀ ck tok srow, extractSessionToken ck = some tok →
        sessionLookup db now (firstTokenSegment tok) = some srow →
        ((db.sponsors.find? (fun s => s.userId == srow.userId)).isSome ∨
          (db.publishers.find? (fun p => p.userId == srow.userId)).isSome) →
        ∃ ident, requireAuth (some ck) now db = .ok ident ∧ ident.id = srow.userId) := by
  refine ⟨rfl, ?_, ?_, ?_, ?_⟩
  · intro ck h
    unfold requireAuth
    simp [h]
  · intro ck tok h1 h2
    unfold requireAuth
    simp [h1, h2]
  · intro ck tok srow h1 h2 hsp hpb
    unfold requireAuth resolveRole
    simp [h1, h2, hsp, hpb]
  · intro ck tok srow h1 h2 hrole
    unfold requireAuth resolveRole
    simp only [h1, h2]
    cases hsp : db.sponsors.find? (fun s => s.userId == srow.userId) with
    | some sp => exact ⟨Identity.mkSponsor srow.userId sp.id, by simp [hsp], rfl⟩
    | none =>
      cases hpb : db.publishers.find? (fun p => p.userId == srow.userId) with
      | some pb => exact ⟨Identity.mkPublisher srow.userId pb.id, by simp [hsp, hpb], rfl⟩
      | none => simp [hsp, hpb] at hrole

/-- Closed witness for C6: every branch of the taxonomy exercised on
the concrete `db1` (valid token "tok1", clock 50, expiry 100). -/
theorem c6_requireAuth_taxonomy_witness :
    requireAuth none 50 db1 =
      .error ⟨401, "Authentication required", some "Please log in first"⟩
    ∧ requireAuth (some "foo=bar") 50 db1 =
      .error ⟨401, "Invalid session", some "Session cookie not found"⟩
    ∧ requireAuth (some "better-auth.session_token=zzz.sig") 50 db1 =
      .error ⟨401, "Session expired", some "Please log in again"⟩
    ∧ (∃ ident, requireAuth (some "better-auth.session_token=tok1.sig") 50 db1 =
        .ok ident ∧ ident.id = "u1") := by
  have h := c6_requireAuth_taxonomy db1 50
  refine ⟨h.1, h.2.1 "foo=bar" (by decide),
    h.2.2.1 "better-auth.session_token=zzz.sig" "zzz.sig" (by decide) (by decide), ?_⟩
  have h5 := h.2.2.2.2 "better-auth.session_token=tok1.sig" "tok1.sig" ⟨"tok1", 100, "u1"⟩
    (by decide) (by decide) (by decide)
  exact h5

/-- C7: with a valid session, the resolver probes the sponsor table
first; a user with rows in both tables always resolves to the sponsor
role with the sponsor row's id. -/
theorem c7_role_prefers_sponsor (db : Db) (now : Nat) (ck tok : String)
    (srow : Session) (sp : Sponsor) (pb : Publisher)
    (h1 : extractSessionToken ck = some tok)
    (h2 : sessionLookup db now (firstTokenSegment tok) = some srow)
    (hsp : db.sponsors.find? (fun s => s.userId == srow.userId) = some sp)
    (hpb : db.publishers.find? (fun p => p.userId == srow.userId) = some pb) :
    requireAuth (some ck) now db = .ok (Identity.mkSponsor srow.userId sp.id) := by
  unfold requireAuth resolveRole
  simp [h1, h2, hsp, hpb]

/-- Closed witness for C7: in `db2` user u1 is in both tables and the
resolver answers the sponsor identity s1. -/
theorem c7_role_prefers_sponsor_witness :
    db2.sponsors.find? (fun s => s.userId == "u1") = some ⟨"s1", "u1", "S"⟩
    ∧ db2.publishers.find? (fun p => p.userId == "u1") = some ⟨"p9", "u1", "P", "tech", 5⟩
    ∧ requireAuth (some "better-auth.session_token=tok1.sig") 50 db2 =
        .ok (Identity.mkSponsor "u1" "s1") := by
  refine ⟨by decide, by decide, ?_⟩
  exact c7_role_prefers_sponsor db2 50 "better-auth.session_token=tok1.sig" "tok1.sig"
    ⟨"tok1", 100, "u1"⟩ ⟨"s1", "u1", "S"⟩ ⟨"p9", "u1", "P", "tech", 5⟩
    (by decide) (by decide) (by decide) (by decide)

/-- C10: ad-slot create and update require basePrice to be a string:
any truthy non-string basePrice (for example the JSON number 10) is
rejected with 400 "Base price must be a positive number", with the
state unchanged, even when the numeric value is positive. -/
theorem c10_basePrice_string_typed (u : Identity) (b : AdSlotBody) (db : Db)
    (newId idp : String) (v : JsVal)
    (hrole : u.role = .publisher)
    (hname : truthy b.name = true) (htype : truthy b.type = true)
    (hbp : b.basePrice = some v) (hstr : isStr v = false) (htr : truthyV v = true) :
    adSlotCreate u b db newId = (errResp 400 "Base price must be a positive number", db)
    ∧ adSlotUpdate u idp b db = (errResp 400 "Base price must be a positive number", db) := by
  have hval : adSlotValidate b = some (errResp 400 "Base price must be a positive number") := by
    have hreq : adSlotBodyRequired b = true := by
      unfold adSlotBodyRequired
      rw [hname, htype, hbp]
      simp [truthy, htr]
    unfold adSlotValidate
    rw [hreq, hbp]
    simp [basePriceInvalid, hstr]
  constructor
  · unfold adSlotCreate
    simp [hrole, hval]
  · unfold adSlotUpdate
    simp [hrole, hval]

/-- Closed witness for C10: publisher p1 sends basePrice as the JSON
number 10; both create and update answer 400 and change nothing. -/
theorem c10_basePrice_string_typed_witness :
    isStr (.vNum 10) = false ∧ truthyV (.vNum 10) = true
    ∧ adSlotCreate (Identity.mkPublisher "u2" "p1") { abGood with basePrice := some (.vNum 10) }
        db1 "a2" = (errResp 400 "Base price must be a positive number", db1)
    ∧ adSlotUpdate (Identity.mkPublisher "u2" "p1") "a1" { abGood with basePrice := some (.vNum 10) }
        db1 = (errResp 400 "Base price must be a positive number", db1) := by
  have h := c10_basePrice_string_typed (Identity.mkPublisher "u2" "p1")
    { abGood with basePrice := some (.vNum 10) } db1 "a2" "a1" (.vNum 10)
    (by decide) (by decide) (by decide) (by decide) (by decide) (by decide)
  exact ⟨by decide, by decide, h.1, h.2⟩

/-- Bridge for the basePrice comparison: the parsed decimal's value is
≤ 0 exactly when its mantissa is, so `basePriceInvalid` compares as the
source's `parseFloat(basePrice) <= 0` does. -/
theorem decValue_nonpos_iff (p : ℤ × ℕ) : decValue p ≤ 0 ↔ p.1 ≤ 0 := by
  unfold decValue
  rw [div_nonpos_iff]
  have hpow : (0 : ℚ) < 10 ^ p.2 := by positivity
  constructor
  · rintro (⟨-, h⟩ | ⟨h, -⟩)
    · exact absurd (lt_of_lt_of_le hpow h) (lt_irrefl 0)
    · exact_mod_cast h
  · intro h
    exact Or.inr ⟨by exact_mod_cast h, le_of_lt hpow⟩

/-- Every rejection produced by the ad-slot field validation is a 400. -/
theorem adSlotValidate_status (b : AdSlotBody) (e : HttpResp)
    (h : adSlotValidate b = some e) : e.status = 400 := by
  unfold adSlotValidate at h
  split_ifs at h <;> (injection h with h2; rw [← h2]; rfl)

/-- A non-positive basePrice body value fails the source's basePrice
check. -/
theorem basePriceInvalid_of_numNonposB (v : Option JsVal)
    (h : numNonposB v = true) : basePriceInvalid (v.getD .vNull) = true := by
  cases v with
  | none => simp [numNonposB] at h
  | some w => cases w <;> simp_all [numNonposB, basePriceInvalid, isStr]

/-- A type value outside the enumerated set fails the source's type
check. -/
theorem typeValid_of_outsideB (t : Option JsVal)
    (h : typeOutsideB t = true) : typeValid (t.getD .vNull) = false := by
  cases t with
  | none => rfl
  | some v => simpa [typeOutsideB] using h

/-- A body with a non-positive basePrice or an out-of-set type is
stopped by the validation with some 400 response. -/
theorem adSlotValidate_400_of_invalid (b : AdSlotBody)
    (h : numNonposB b.basePrice = true ∨ typeOutsideB b.type = true) :
    ∃ e, adSlotValidate b = some e ∧ e.status = 400 := by
  unfold adSlotValidate
  by_cases h1 : adSlotBodyRequired b = true
  · by_cases h2 : basePriceInvalid (b.basePrice.getD .vNull) = true
    · exact ⟨errResp 400 "Base price must be a positive number", by simp [h1, h2], rfl⟩
    · have h3 : typeValid (b.type.getD .vNull) = false := by
        rcases h with hnum | ht
        · exact absurd (basePriceInvalid_of_numNonposB _ hnum) h2
        · exact typeValid_of_outsideB _ ht
      exact ⟨errResp 400 ("Type must be one of: " ++ String.intercalate ", " validTypes),
        by simp [h1, h2, h3], rfl⟩
  · exact ⟨errResp 400 "Name, type, and basePrice are required", by simp [h1], rfl⟩

/-- C2: the stored owner field of a created Campaign/AdSlot always
equals the caller's resolved scoped identity, and an owner id supplied
in the request body has no influence whatsoever: two requests differing
only in the body-supplied owner id yield identical responses and
states. -/
theorem c2_create_owner_from_identity
    (u : Identity) (cb : CampaignBody) (v : Option JsVal)
    (ab : AdSlotBody) (w : Option JsVal) (db : Db) (newId : String) :
    campaignCreate u { cb with sponsorId := v } db newId = campaignCreate u cb db newId
    ∧ adSlotCreate u { ab with publisherId := w } db newId = adSlotCreate u ab db newId
    ∧ ((campaignCreate u cb db newId).1.status = 201 →
        ∃ c : Campaign, (campaignCreate u cb db newId).2.campaigns = db.campaigns ++ [c]
          ∧ some c.sponsorId = u.sponsorId)
    ∧ ((adSlotCreate u ab db newId).1.status = 201 →
        ∃ s : AdSlot, (adSlotCreate u ab db newId).2.adSlots = db.adSlots ++ [s]
          ∧ some s.publisherId = u.publisherId) := by
  refine ⟨rfl, rfl, ?_, ?_⟩
  · intro h
    unfold campaignCreate at h ⊢
    by_cases hreq : campaignBodyRequired cb = true
    · cases hs : u.sponsorId with
      | none => simp [hreq, hs, errResp] at h
      | some sid =>
        simp only [hreq, hs, Bool.not_true, Bool.false_eq_true, if_false]
        exact ⟨mkCampaign sid newId cb, rfl, rfl⟩
    · simp [hreq, errResp] at h
  · intro h
    unfold adSlotCreate at h ⊢
    by_cases hrole : u.role = Role.publisher
    · cases hval : adSlotValidate ab with
      | some e =>
        have h400 := adSlotValidate_status ab e hval
        simp [hrole, hval, h400] at h
      | none =>
        cases hp : u.publisherId with
        | none => simp [hrole, hval, hp, errResp] at h
        | some pid =>
          simp only [hrole, hval, hp]
          simp only [ne_eq, not_true_eq_false, if_false]
          exact ⟨mkAdSlot pid newId ab, rfl, rfl⟩
    · simp [hrole, errResp] at h

/-- Closed witness for C2: sponsor s1 creates a campaign (the body's
sponsorId "sX" is ignored) and publisher p1 creates an ad slot (the
body's publisherId "pX" is ignored); each stored owner is the caller's
scoped id. -/
theorem c2_create_owner_from_identity_witness :
    campaignCreate (Identity.mkSponsor "u1" "s1")
        { cbGood with sponsorId := some (.vStr "sX") } db1 "c9"
      = campaignCreate (Identity.mkSponsor "u1" "s1") cbGood db1 "c9"
    ∧ adSlotCreate (Identity.mkPublisher "u2" "p1")
        { abGood with publisherId := some (.vStr "pX") } db1 "a9"
      = adSlotCreate (Identity.mkPublisher "u2" "p1") abGood db1 "a9"
    ∧ (∃ c : Campaign,
        (campaignCreate (Identity.mkSponsor "u1" "s1") cbGood db1 "c9").2.campaigns
          = db1.campaigns ++ [c]
        ∧ some c.sponsorId = (Identity.mkSponsor "u1" "s1").sponsorId)
    ∧ (∃ s : AdSlot,
        (adSlotCreate (Identity.mkPublisher "u2" "p1") abGood db1 "a9").2.adSlots
          = db1.adSlots ++ [s]
        ∧ some s.publisherId = (Identity.mkPublisher "u2" "p1").publisherId) := by
  have hS := c2_create_owner_from_identity (Identity.mkSponsor "u1" "s1") cbGood
    (some (.vStr "sX")) abGood (some (.vStr "pX")) db1 "c9"
  have hP := c2_create_owner_from_identity (Identity.mkPublisher "u2" "p1") cbGood
    (some (.vStr "sX")) abGood (some (.vStr "pX")) db1 "a9"
  exact ⟨hS.1, hP.2.1, hS.2.2.1 (by decide), hP.2.2.2 (by decide)⟩

/-- C4: an ad-slot create whose basePrice denotes a number ≤ 0 or whose
type is outside {DISPLAY, VIDEO, NATIVE, NEWSLETTER, PODCAST} never
creates a record and is answered 400 (after the publishers-only role
gate; a non-publisher is stopped with 403, also without a record). -/
theorem c4_adSlot_create_validation (u : Identity) (b : AdSlotBody) (db : Db)
    (newId : String)
    (h : numNonposB b.basePrice = true ∨ typeOutsideB b.type = true) :
    (adSlotCreate u b db newId).2 = db
    ∧ (adSlotCreate u b db newId).1.status ≠ 201
    ∧ (u.role = .publisher → (adSlotCreate u b db newId).1.status = 400) := by
  obtain ⟨e, hval, hst⟩ := adSlotValidate_400_of_invalid b h
  unfold adSlotCreate
  by_cases hrole : u.role = Role.publisher
  · refine ⟨?_, ?_, ?_⟩ <;> simp [hrole, hval, hst]
  · refine ⟨?_, ?_, ?_⟩ <;> simp [hrole, errResp]

/-- Closed witness for C4: publisher p1 sends basePrice "-5" (and, in a
second request, type "BANNER"); both are answered 400 with no record. -/
theorem c4_adSlot_create_validation_witness :
    numNonposB (some (.vStr "-5")) = true
    ∧ (adSlotCreate (Identity.mkPublisher "u2" "p1")
        { abGood with basePrice := some (.vStr "-5") } db1 "a9").2 = db1
    ∧ (adSlotCreate (Identity.mkPublisher "u2" "p1")
        { abGood with basePrice := some (.vStr "-5") } db1 "a9").1.status = 400
    ∧ typeOutsideB (some (.vStr "BANNER")) = true
    ∧ (adSlotCreate (Identity.mkPublisher "u2" "p1")
        { abGood with type := some (.vStr "BANNER") } db1 "a9").2 = db1
    ∧ (adSlotCreate (Identity.mkPublisher "u2" "p1")
        { abGood with type := some (.vStr "BANNER") } db1 "a9").1.status = 400 := by
  have h1 := c4_adSlot_create_validation (Identity.mkPublisher "u2" "p1")
    { abGood with basePrice := some (.vStr "-5") } db1 "a9" (Or.inl (by decide))
  have h2 := c4_adSlot_create_validation (Identity.mkPublisher "u2" "p1")
    { abGood with type := some (.vStr "BANNER") } db1 "a9" (Or.inr (by decide))
  exact ⟨by decide, h1.1, h1.2.2 (by decide), by decide, h2.1, h2.2.2 (by decide)⟩

/-- No campaign row passes the id + sponsorId filter when every row
with the requested id has a different owner. -/
theorem findCampaign_none_of (db : Db) (idp sid : String)
    (h : ∀ c ∈ db.campaigns, c.id = idp → c.sponsorId ≠ sid) :
    findCampaign db idp (some sid) = none := by
  unfold findCampaign
  rw [List.find?_eq_none]
  intro c hc
  simp only [matchOpt, Bool.and_eq_true, beq_iff_eq, not_and]
  intro hid hs
  exact h c hc hid hs.symm

/-- No ad-slot row passes the id + publisherId filter when every row
with the requested id has a different owner. -/
theorem findAdSlot_none_of (db : Db) (idp pid : String)
    (h : ∀ s ∈ db.adSlots, s.id = idp → s.publisherId ≠ pid) :
    findAdSlot db idp (some pid) = none := by
  unfold findAdSlot
  rw [List.find?_eq_none]
  intro s hs
  simp only [matchOpt, Bool.and_eq_true, beq_iff_eq, not_and]
  intro hid hp
  exact h s hs hid hp.symm

/-- C5 (implicit in the code): a publisher-role caller reaches the
campaign endpoints with `sponsorId` undefined, and Prisma omits an
undefined filter: the campaign list returns every sponsor's campaigns,
and the ownership re-check of update/delete passes for any existing
campaign regardless of its owner. -/
theorem c5_publisher_campaigns_unscoped (uid pid idp : String) (db : Db)
    (cb : CampaignBody)
    (hreq : campaignBodyRequired cb = true)
    (hmem : ∃ c ∈ db.campaigns, c.id = idp) :
    campaignList (Identity.mkPublisher uid pid) none db = db.campaigns
    ∧ (campaignUpdate (Identity.mkPublisher uid pid) idp cb db).1.status = 200
    ∧ (campaignDelete (Identity.mkPublisher uid pid) idp db).1.status = 204
    ∧ (campaignDelete (Identity.mkPublisher uid pid) idp db).2.campaigns =
        db.campaigns.filter (fun c => !(c.id == idp)) := by
  have hfind : ∃ c, findCampaign db idp none = some c := by
    have hsome : (db.campaigns.find? (fun c => c.id == idp && matchOpt none c.sponsorId)).isSome := by
      rw [List.find?_isSome]
      obtain ⟨c, hc, hid⟩ := hmem
      exact ⟨c, hc, by simp [matchOpt, hid]⟩
    obtain ⟨c2, hc2⟩ := Option.isSome_iff_exists.mp hsome
    exact ⟨c2, hc2⟩
  obtain ⟨c0, hc0⟩ := hfind
  refine ⟨?_, ?_, ?_, ?_⟩
  · unfold campaignList
    rw [List.filter_eq_self.mpr]
    intro c _
    simp [matchOpt, statusFilter, Identity.mkPublisher]
  · unfold campaignUpdate
    simp [hreq, Identity.mkPublisher, hc0]
  · unfold campaignDelete
    simp [Identity.mkPublisher, hc0]
  · unfold campaignDelete
    simp [Identity.mkPublisher, hc0]

/-- Closed witness for C5: publisher p1 lists every campaign of `db1`
(including sponsor s1's) and deletes campaign "c1" it does not own. -/
theorem c5_publisher_campaigns_unscoped_witness :
    campaignList (Identity.mkPublisher "u2" "p1") none db1 = db1.campaigns
    ∧ (campaignUpdate (Identity.mkPublisher "u2" "p1") "c1" cbGood db1).1.status = 200
    ∧ (campaignDelete (Identity.mkPublisher "u2" "p1") "c1" db1).1.status = 204 := by
  have h := c5_publisher_campaigns_unscoped "u2" "p1" "c1" db1 cbGood (by decide)
    ⟨camp1, by decide, by decide⟩
  exact ⟨h.1, h.2.1, h.2.2.1⟩

/-- C1 counterexample: the claim quantifies over every authenticated
caller, but a publisher's campaign fetch is unscoped (its sponsorId
filter is undefined and omitted): publisher p2, whose scoped id "p2"
differs from campaign c1's owning sponsorId "s1", receives 200 and the
full record instead of 404. -/
theorem c1_ownership_scoping_counterexample :
    (Identity.mkPublisher "u2" "p2").publisherId = some "p2"
    ∧ camp1.sponsorId = "s1"
    ∧ ("p2" : String) ≠ "s1"
    ∧ campaignGetById (Identity.mkPublisher "u2" "p2") "c1" db1 =
        ⟨200, .campaignOne camp1⟩ := by
  exact ⟨rfl, rfl, by decide, by decide⟩

/-- C1 amended: the 404 ownership scoping holds for callers whose
identity carries the same kind of scoped id as the resource — sponsor
callers on Campaign, publisher callers on AdSlot: when no row with the
requested id belongs to them, get-by-id, update (with a body passing
validation) and delete all answer 404 and leave the state unchanged. -/
theorem c1_ownership_scoping_same_role (db : Db)
    (uid uid2 sid pid idp : String) (cb : CampaignBody) (ab : AdSlotBody)
    (hcb : campaignBodyRequired cb = true)
    (hab : adSlotValidate ab = none)
    (hc : ∀ c ∈ db.campaigns, c.id = idp → c.sponsorId ≠ sid)
    (hs : ∀ s ∈ db.adSlots, s.id = idp → s.publisherId ≠ pid) :
    campaignGetById (Identity.mkSponsor uid sid) idp db = errResp 404 "Campaign not found"
    ∧ campaignUpdate (Identity.mkSponsor uid sid) idp cb db =
        (errResp 404 "Campaign not found", db)
    ∧ campaignDelete (Identity.mkSponsor uid sid) idp db =
        (errResp 404 "Campaign not found", db)
    ∧ adSlotGetById (Identity.mkPublisher uid2 pid) idp db = errResp 404 "Ad slot not found"
    ∧ adSlotUpdate (Identity.mkPublisher uid2 pid) idp ab db =
        (errResp 404 "Ad slot not found", db)
    ∧ adSlotDelete (Identity.mkPublisher uid2 pid) idp db =
        (errResp 404 "Ad slot not found", db) := by
  have hfc := findCampaign_none_of db idp sid hc
  have hfs := findAdSlot_none_of db idp pid hs
  refine ⟨?_, ?_, ?_, ?_, ?_, ?_⟩
  · unfold campaignGetById
    simp [Identity.mkSponsor, hfc]
  · unfold campaignUpdate
    simp [hcb, Identity.mkSponsor, hfc]
  · unfold campaignDelete
    simp [Identity.mkSponsor, hfc]
  · unfold adSlotGetById
    have hnone : db.adSlots.find? (fun s => s.id == idp &&
        (if (Identity.mkPublisher uid2 pid).role = Role.publisher then
          matchOpt (Identity.mkPublisher uid2 pid).publisherId s.publisherId else true)) = none := by
      rw [List.find?_eq_none]
      intro s hsm
      rw [if_pos (show (Identity.mkPublisher uid2 pid).role = Role.publisher from rfl)]
      simp only [Identity.mkPublisher, matchOpt, Bool.and_eq_true, beq_iff_eq, not_and]
      intro hid hp
      exact hs s hsm hid hp.symm
    rw [hnone]
  · unfold adSlotUpdate
    simp [hab, Identity.mkPublisher, hfs]
  · unfold adSlotDelete
    simp [Identity.mkPublisher, hfs]

/-- Closed witness for the amended C1: sponsor s2 on campaign "c1"
(owned by s1) and publisher p2 on slot "a1" (owned by p1) each get 404
with nothing changed. -/
theorem c1_ownership_scoping_same_role_witness :
    campaignGetById (Identity.mkSponsor "u9" "s2") "c1" db1 = errResp 404 "Campaign not found"
    ∧ campaignUpdate (Identity.mkSponsor "u9" "s2") "c1" cbGood db1 =
        (errResp 404 "Campaign not found", db1)
    ∧ campaignDelete (Identity.mkSponsor "u9" "s2") "c1" db1 =
        (errResp 404 "Campaign not found", db1)
    ∧ adSlotGetById (Identity.mkPublisher "u8" "p2") "a1" db1 = errResp 404 "Ad slot not found"
    ∧ adSlotUpdate (Identity.mkPublisher "u8" "p2") "a1" abGood db1 =
        (errResp 404 "Ad slot not found", db1)
    ∧ adSlotDelete (Identity.mkPublisher "u8" "p2") "a1" db1 =
        (errResp 404 "Ad slot not found", db1) := by
  have h1 := c1_ownership_scoping_same_role db1 "u9" "u8" "s2" "p2" "c1" cbGood abGood
    (by decide) (by decide) (by decide) (by decide)
  have h2 := c1_ownership_scoping_same_role db1 "u9" "u8" "s2" "p2" "a1" cbGood abGood
    (by decide) (by decide) (by decide) (by decide)
  exact ⟨h1.1, h1.2.1, h1.2.2.1, h2.2.2.2.1, h2.2.2.2.2.1, h2.2.2.2.2.2⟩

/-- C8 counterexample: campaign update destructures `status` from the
body but never passes it to the stored update: with the payload asking
for "PAUSED", the update succeeds (200) yet the stored status stays
"ACTIVE" — refuting "every mutable field (including Campaign.status)
is required in the payload and is overwritten". -/
theorem c8_full_replace_counterexample :
    cbStatus.status = some (.vStr "PAUSED")
    ∧ camp1.status = "ACTIVE"
    ∧ (campaignUpdate (Identity.mkSponsor "u1" "s1") "c1" cbStatus db1).1.status = 200
    ∧ (campaignUpdate (Identity.mkSponsor "u1" "s1") "c1" cbStatus db1).2.campaigns.map
        Campaign.status = ["ACTIVE"] := by
  exact ⟨rfl, rfl, by decide, by decide⟩

/-- C8 amended: update re-fetches by id + scoped id before writing and
404s (unchanged state) when the caller owns no matching row; ad-slot
update applies exactly the create validation (it answers 400 precisely
when create would); only name/budget/startDate/endDate (Campaign) resp.
name/type/basePrice (AdSlot) are required; a successful campaign update
overwrites the row with the payload-derived data — but Campaign.status
is never modified by any update. -/
theorem c8_update_semantics (u : Identity) (idp : String)
    (cb : CampaignBody) (ab : AdSlotBody) (db : Db) (newId : String) :
    (campaignBodyRequired cb = true → findCampaign db idp u.sponsorId = none →
      campaignUpdate u idp cb db = (errResp 404 "Campaign not found", db))
    ∧ (u.role = .publisher → adSlotValidate ab = none →
        findAdSlot db idp u.publisherId = none →
        adSlotUpdate u idp ab db = (errResp 404 "Ad slot not found", db))
    ∧ (u.role = .publisher →
        ((adSlotUpdate u idp ab db).1.status = 400 ↔
          (adSlotCreate u ab db newId).1.status = 400))
    ∧ ((campaignUpdate u idp cb db).2.campaigns.map Campaign.status =
        db.campaigns.map Campaign.status)
    ∧ (∀ c, campaignBodyRequired cb = true → findCampaign db idp u.sponsorId = some c →
        (campaignUpdate u idp cb db).2.campaigns =
          db.campaigns.map (fun x => if x.id == idp then applyCampaignUpdate u cb x else x)) := by
  refine ⟨?_, ?_, ?_, ?_, ?_⟩
  · intro hreq hfind
    unfold campaignUpdate
    simp [hreq, hfind]
  · intro hrole hval hfind
    unfold adSlotUpdate
    simp [hrole, hval, hfind]
  · intro hrole
    cases hval : adSlotValidate ab with
    | some e =>
      have h400 := adSlotValidate_status ab e hval
      have hL : (adSlotUpdate u idp ab db).1.status = 400 := by
        unfold adSlotUpdate
        simp [hrole, hval, h400]
      have hR : (adSlotCreate u ab db newId).1.status = 400 := by
        unfold adSlotCreate
        simp [hrole, hval, h400]
      simp [hL, hR]
    | none =>
      have hL : (adSlotUpdate u idp ab db).1.status ≠ 400 := by
        unfold adSlotUpdate
        cases hf : findAdSlot db idp u.publisherId <;> simp [hrole, hval, hf, errResp]
      have hR : (adSlotCreate u ab db newId).1.status ≠ 400 := by
        unfold adSlotCreate
        cases hp : u.publisherId <;> simp [hrole, hval, hp, errResp]
      constructor
      · intro hh; exact absurd hh hL
      · intro hh; exact absurd hh hR
  · unfold campaignUpdate
    by_cases hreq : campaignBodyRequired cb = true
    · cases hf : findCampaign db idp u.sponsorId with
      | none => simp [hreq, hf]
      | some c =>
        simp only [hreq, Bool.not_true, Bool.false_eq_true, if_false, hf]
        rw [List.map_map]
        apply List.map_congr_left
        intro a _
        by_cases hid : (a.id == idp) = true <;>
          simp [hid, Function.comp, applyCampaignUpdate]
    · simp [hreq]
  · intro c hreq hfind
    unfold campaignUpdate
    simp [hreq, hfind]

/-- Closed witness for the amended C8, applying it at three concrete
callers: a foreign sponsor is stopped 404 by the re-fetch, the
validation equivalence and the 404 for a missing slot hold for
publisher p1, and sponsor s1's successful update maps the stored rows
while preserving status. -/
theorem c8_update_semantics_witness :
    campaignUpdate (Identity.mkSponsor "u9" "s9") "c1" cbGood db1 =
        (errResp 404 "Campaign not found", db1)
    ∧ adSlotUpdate (Identity.mkPublisher "u2" "p1") "a9" abGood db1 =
        (errResp 404 "Ad slot not found", db1)
    ∧ ((adSlotUpdate (Identity.mkPublisher "u2" "p1") "a9" abGood db1).1.status = 400 ↔
        (adSlotCreate (Identity.mkPublisher "u2" "p1") abGood db1 "a9").1.status = 400)
    ∧ ((campaignUpdate (Identity.mkSponsor "u1" "s1") "c1" cbGood db1).2.campaigns.map
        Campaign.status = db1.campaigns.map Campaign.status)
    ∧ ((campaignUpdate (Identity.mkSponsor "u1" "s1") "c1" cbGood db1).2.campaigns =
        db1.campaigns.map (fun x =>
          if x.id == "c1" then applyCampaignUpdate (Identity.mkSponsor "u1" "s1") cbGood x else x)) := by
  have h1 := c8_update_semantics (Identity.mkSponsor "u9" "s9") "c1" cbGood abGood db1 "a9"
  have h2 := c8_update_semantics (Identity.mkPublisher "u2" "p1") "a9" cbGood abGood db1 "a9"
  have h3 := c8_update_semantics (Identity.mkSponsor "u1" "s1") "c1" cbGood abGood db1 "a9"
  exact ⟨h1.1 (by decide) (by decide),
    h2.2.1 (by decide) (by decide) (by decide),
    h2.2.2.1 (by decide),
    h3.2.2.2.1,
    h3.2.2.2.2 camp1 (by decide) (by decide)⟩
